import Mathlib

/-!
Verification development for the threedllm repository.

This file embeds, as executable Lean definitions, the parts of the code that
the verified properties concern:

* `threedllm/api/tasks.py` — `TaskManager`: task records, `create_task`,
  `_run_task` (the executor pipeline), `get_result_path`.
* `threedllm/generators/api_base.py` — `APIGenerator3D.generate`, the generic
  remote polling loop.
* `threedllm/generators/instant3d.py` / `neural4d.py` — `_check_status`
  normalizers.
* `threedllm/generators/huggingface.py` — `_parse_response_to_mesh`.
* `threedllm/api/main.py` — `download_file`.

Progress values are embedded as rationals with the same literals the Python
source writes (0.05, 0.1, 0.2, 0.8, 1.0); all comparisons the properties make
are order comparisons between these literals, which agree with the floats.
Python dict fields that may be absent are embedded as `Option`; Python string
truthiness (`if not x`) is embedded explicitly.
-/

namespace ThreeDLLM

/-- Python truthiness of an optional string: `None` and `""` are falsy. -/
def pyTruthyStr : Option String → Bool
  | none => false
  | some s => s ≠ ""

/-- Python `str.lower()`, as a character-wise map (the statuses the code
compares are ASCII). -/
def pyLower (s : String) : String := ⟨s.data.map Char.toLower⟩

/-- Python `a or b` on two optional strings: returns `a` when truthy, else `b`. -/
def pyOr (a b : Option String) : Option String :=
  match a with
  | none => b
  | some s => if s = "" then b else some s

/-- Task status strings of `TaskManager` ("pending"/"processing"/"completed"/"failed"). -/
inductive TaskStatus where
  | pending
  | processing
  | completed
  | failed
deriving DecidableEq, Repr

/-- One task record of `TaskManager.tasks` (a Python dict with keys
`status`, `progress`, `message`, `result_path`, `error`). -/
structure TaskRecord where
  status : TaskStatus
  progress : ℚ
  message : String
  result_path : Option String
  error : Option String
deriving DecidableEq, Repr

/-- The record `TaskManager.create_task` installs under the fresh task id
(tasks.py lines 64-70). -/
def initialRecord : TaskRecord :=
  { status := .pending
    progress := 0
    message := "Task created"
    result_path := none
    error := none }

/-- `TaskManager.create_task`: inserts the initial record under the new id and
returns the id; the background run (`_run_task`) is only scheduled, not
executed, on this control path. -/
def createTask (tasks : String → Option TaskRecord) (taskId : String) :
    String × (String → Option TaskRecord) :=
  (taskId, fun k => if k = taskId then some initialRecord else tasks k)

/-- The environment one run of `TaskManager._run_task` executes in: the flag
and collaborator outcomes that determine its control flow.  `enhanceRes` is
the outcome of `pipeline.vlm.enhance_prompt` (`.error e` = the call raised an
exception whose `str` is `e`, `.ok t` = it returned a response with text `t`);
`generateRes` / `exportRes` likewise for the generation and export stages
(the export stage includes `_get_exporter`, which can raise for an unknown
format). `outputPath` is `str(self.output_dir / f"{task_id}.{format}")`. -/
structure RunEnv where
  prompt : String
  useVlm : Bool
  vlmPresent : Bool
  vlmAvailable : Bool
  enhanceRes : Except String String
  generateRes : Except String Unit
  exportRes : Except String Unit
  outputPath : String

/-- The `except Exception` handler of `_run_task` (tasks.py lines 165-173):
writes status "failed", the error text, and the message — nothing else. -/
def failUpd (e : String) (r : TaskRecord) : TaskRecord :=
  { r with
    status := .failed
    error := some e
    message := "Generation failed: " ++ e }

/-- The generation/export phase of `_run_task` (tasks.py lines 123-173),
entered with the enhanced (or original) prompt.  Returns the remaining trace
of record snapshots appended to `pre`, together with the prompt that was
passed to `pipeline.generator.generate`. -/
def runGenPhase (env : RunEnv) (pre : List TaskRecord) (cur : TaskRecord)
    (enhanced : String) : List TaskRecord × Option String :=
  let r3 := { cur with
    progress := (1 : ℚ)/5
    message := "Generating 3D mesh... (this may take 2-5 minutes)" }
  match env.generateRes with
  | .error e => (pre ++ [r3, failUpd e r3], some enhanced)
  | .ok _ =>
    let r4 := { r3 with progress := (4 : ℚ)/5, message := "Exporting mesh..." }
    match env.exportRes with
    | .error e => (pre ++ [r3, r4, failUpd e r4], some enhanced)
    | .ok _ =>
      let r5 := { r4 with
        status := .completed
        progress := (1 : ℚ)
        message := "Generation completed"
        result_path := some env.outputPath }
      (pre ++ [r3, r4, r5], some enhanced)

/-- `TaskManager._run_task` (tasks.py lines 88-173), embedded as the sequence
of record snapshots the task's entry goes through, starting from the record
`create_task` installed.  The second component is the prompt passed to
`pipeline.generator.generate` (`none` when generation was never reached). -/
def runTask (env : RunEnv) : List TaskRecord × Option String :=
  let r0 := initialRecord
  let r1 := { r0 with
    status := .processing
    progress := (1 : ℚ)/20
    message := "Starting generation..." }
  if env.useVlm && env.vlmPresent && env.vlmAvailable then
    let r2 := { r1 with
      progress := (1 : ℚ)/10
      message := "Enhancing prompt with VLM..." }
    match env.enhanceRes with
    | .error e => ([r0, r1, r2, failUpd e r2], none)
    | .ok t => runGenPhase env [r0, r1, r2] r2 t
  else
    runGenPhase env [r0, r1] r1 env.prompt

/-- The task's terminal record: the last snapshot of the run's trace. -/
def lastRecord (env : RunEnv) : TaskRecord :=
  ((runTask env).1).getLastD initialRecord

/-- The record immediately before the terminal one. -/
def prevRecord (env : RunEnv) : TaskRecord :=
  ((runTask env).1.dropLast).getLastD initialRecord

/-- `TaskManager.get_result_path` (tasks.py lines 196-201): the stored result
path, but only when the task exists, its status is "completed", and the path
is truthy. -/
def getResultPath (tasks : String → Option TaskRecord) (taskId : String) :
    Option String :=
  match tasks taskId with
  | none => none
  | some t =>
    if t.status = .completed ∧ pyTruthyStr t.result_path then t.result_path
    else none

/-! ## Remote job poller (`generators/api_base.py`) -/

/-- The dict returned by a backend's `_check_status`: a classification string
plus the optional `result_url`, `format`, `error` entries. -/
structure StatusResult where
  status : String
  result_url : Option String
  format : Option String
  error : Option String
deriving DecidableEq, Repr

/-- The value `APIGenerator3D.generate` resolves to when polling ends with a
download: the `result_url` it downloads and the format tag it parses with. -/
structure DownloadRef where
  url : String
  fmt : String
deriving DecidableEq, Repr

/-- The polling loop of `APIGenerator3D.generate` (api_base.py lines 113-140).
`check i` is the result of the `i`-th `_check_status` call, made at elapsed
time `5 * i`; the loop runs while the elapsed time is below the 300-unit wait
budget (`5 * i < 300`), sleeping 5 units between polls.  `fuel` is a recursion
bound only; `apiGenerate` supplies more fuel than the budget admits polls, so
the `fuel = 0` case is never the reason the timeout fires. -/
def apiGeneratePoll (check : Nat → StatusResult) : Nat → Nat → Except String DownloadRef
  | 0, _ => .error "Generation timed out"
  | fuel + 1, i =>
    if 5 * i < 300 then
      let s := check i
      if s.status = "completed" then
        if pyTruthyStr s.result_url then
          .ok ⟨s.result_url.getD "", s.format.getD "obj"⟩
        else
          .error "Generation completed but no result URL provided"
      else if s.status = "failed" then
        .error ("Generation failed: " ++ s.error.getD "Unknown error")
      else
        apiGeneratePoll check fuel (i + 1)
    else
      .error "Generation timed out"

/-- `APIGenerator3D.generate` (api_base.py lines 94-140): availability check,
submission, then the polling loop.  `className` is the concrete generator's
class name; `submitRes` is the outcome of `_submit_generation` (`.error` = it
raised). Downloading and parsing of the completed result are abstracted into
the returned `DownloadRef`. -/
def apiGenerate (className : String) (available : Bool)
    (submitRes : Except String String) (check : Nat → StatusResult) :
    Except String DownloadRef :=
  if !available then
    .error (className ++ " is not available. Check API key.")
  else
    match submitRes with
    | .error e => .error e
    | .ok _ => apiGeneratePoll check 61 0

/-- A status classification that the polling loop does not treat as terminal. -/
def nonTerminal (s : StatusResult) : Prop :=
  s.status ≠ "completed" ∧ s.status ≠ "failed"

instance (s : StatusResult) : Decidable (nonTerminal s) := by
  unfold nonTerminal; infer_instance

/-! ## Backend status normalizers (`instant3d.py`, `neural4d.py`) -/

/-- The JSON body Instant3D's status endpoint returns, restricted to the
fields `Instant3DGenerator._check_status` reads.  An absent (or null) field
is `none`. -/
structure I3DResponse where
  status : Option String
  download_url : Option String
  model_url : Option String
  format : Option String
  error : Option String
deriving DecidableEq, Repr

/-- The branch structure of `Instant3DGenerator._check_status` applied to the
already-lowercased status string `status`. -/
def i3dNormalize (d : I3DResponse) (status : String) : StatusResult :=
  if status = "completed" ∨ status = "done" ∨ status = "success" then
    { status := "completed"
      result_url := pyOr d.download_url d.model_url
      format := some (d.format.getD "obj")
      error := none }
  else if status = "failed" ∨ status = "error" then
    { status := "failed"
      result_url := none
      format := none
      error := some (d.error.getD "Generation failed") }
  else if status = "processing" ∨ status = "generating" ∨ status = "in_progress" then
    { status := "processing", result_url := none, format := none, error := none }
  else
    { status := status, result_url := none, format := none, error := none }

/-- `Instant3DGenerator._check_status` (instant3d.py lines 69-94), given the
decoded response body: lowercases `data.get("status", "pending")` and maps
the listed synonym sets onto completed/failed/processing, passing any other
status through unchanged. -/
def instant3dCheckStatus (d : I3DResponse) : StatusResult :=
  i3dNormalize d (pyLower (d.status.getD "pending"))

/-- The JSON body Neural4D's status endpoint returns, restricted to the
fields `Neural4DGenerator._check_status` reads. -/
structure N4DResponse where
  status : Option String
  download_url : Option String
  result_url : Option String
  file_url : Option String
  format : Option String
  error : Option String
deriving DecidableEq, Repr

/-- The branch structure of `Neural4DGenerator._check_status` applied to the
already-lowercased status string `status`.  Note the `status` entry of the
result is that string in every branch: only the extra fields differ. -/
def n4dNormalize (d : N4DResponse) (status : String) : StatusResult :=
  if status = "completed" then
    { status := status
      result_url := pyOr (pyOr d.download_url d.result_url) d.file_url
      format := some (d.format.getD "obj")
      error := none }
  else if status = "failed" then
    { status := status
      result_url := none
      format := none
      error := some (d.error.getD "Generation failed") }
  else
    { status := status, result_url := none, format := none, error := none }

/-- `Neural4DGenerator._check_status` (neural4d.py lines 109-138), given the
decoded response body. -/
def neural4dCheckStatus (d : N4DResponse) : StatusResult :=
  n4dNormalize d (pyLower (d.status.getD "pending"))

/-- The four normalized classifications the spec's remote protocol names. -/
def normalizedStatuses : List String := ["pending", "processing", "completed", "failed"]

/-! ## HuggingFace response decoder (`huggingface.py`) -/

/-- A vertex / normal coordinate triple. -/
def Point : Type := ℚ × ℚ × ℚ

instance : DecidableEq Point := by unfold Point; infer_instance

/-- `MeshResult` of `generators/base.py`. -/
structure MeshResult where
  vertices : List Point
  faces : Option (List (Nat × Nat × Nat))
  normals : Option (List Point)
  prompt : String
deriving DecidableEq

/-- The JSON object `HuggingFaceGenerator._parse_response_to_mesh` receives,
restricted to the keys it inspects.  A key present in the dict is `some`
(payloads of the file/url/data keys kept as strings). -/
structure HFResponse where
  vertices : Option (List Point)
  faces : Option (List (Nat × Nat × Nat))
  normals : Option (List Point)
  file : Option String
  mesh : Option String
  url : Option String
  download_url : Option String
  data : Option String
deriving DecidableEq

/-- Which decoding path `_parse_response_to_mesh` committed to, with the value
that path consumes.  Downstream decoding (base64, the HTTP fetch, trimesh
parsing) is abstracted: it raises its own errors, distinct from the
unrecognized-shape failure this function itself can raise. -/
inductive ParsedMesh where
  | direct (m : MeshResult)
  | fromFile (payload : Option String)
  | fromUrl (ref : Option String)
  | fromData (payload : String)
deriving DecidableEq

/-- `HuggingFaceGenerator._parse_response_to_mesh` (huggingface.py lines
238-292): the four option branches in source order, else the
unrecognized-response-shape failure. -/
def parseResponseToMesh (r : HFResponse) : Except String ParsedMesh :=
  match r.vertices, r.faces with
  | some v, some f => .ok (.direct ⟨v, some f, r.normals, ""⟩)
  | _, _ =>
    if r.file.isSome ∨ r.mesh.isSome then
      .ok (.fromFile (pyOr r.file r.mesh))
    else if r.url.isSome ∨ r.download_url.isSome then
      .ok (.fromUrl (pyOr r.url r.download_url))
    else
      match r.data with
      | some s => .ok (.fromData s)
      | none =>
        .error "Could not parse response to mesh. Response format not recognized."

/-! ## Result download endpoint (`api/main.py`) -/

/-- Lexical path resolution on segment lists, the model of `Path.resolve()`
used by `download_file`: `..` pops a segment, `.` and empty segments vanish. -/
def normSegs (acc : List String) : List String → List String
  | [] => acc
  | s :: rest =>
    if s = ".." then normSegs acc.dropLast rest
    else if s = "." ∨ s = "" then normSegs acc rest
    else normSegs (acc ++ [s]) rest

/-- Outcome of the `/api/files/{filename}` route. -/
inductive DownloadResult where
  | served (p : List String)
  | notFound
  | accessDenied
deriving DecidableEq, Repr

/-- Splitting a path string at `'/'`, the segment view of the `filename`
route parameter joined under the output directory. -/
def splitSlashAux : List Char → List Char → List String
  | [], acc => [String.mk acc.reverse]
  | c :: cs, acc =>
    if c = '/' then String.mk acc.reverse :: splitSlashAux cs []
    else splitSlashAux cs (c :: acc)

/-- Path segments of a filename string. -/
def pySplitSlash (s : String) : List String := splitSlashAux s.data []

/-- `download_file` (main.py lines 196-213).  `outDir` is
`task_manager.output_dir` as path segments, `files` the set of (resolved)
paths of existing regular files.  The route first resolves
`output_dir / filename` and 404s when no file exists there; it then requires
`file_path.resolve().relative_to(output_dir.resolve())` to succeed — i.e. the
resolved output directory must be a prefix of the resolved file path — and
403s otherwise.  The task registry is not consulted. -/
def downloadFile (outDir : List String) (files : List (List String))
    (filename : String) : DownloadResult :=
  if normSegs [] (outDir ++ pySplitSlash filename) ∈ files then
    if (normSegs [] outDir).isPrefixOf
        (normSegs [] (outDir ++ pySplitSlash filename)) then
      .served (normSegs [] (outDir ++ pySplitSlash filename))
    else .accessDenied
  else .notFound

/-! ## Theorems -/

/-- C3: for every run of the executor pipeline, the terminal record populates
exactly one of the two terminal fields: status completed implies `result_path`
is set and `error` unset, and status failed implies `error` is set and
`result_path` unset. -/
theorem terminal_fields_exclusive (env : RunEnv) :
    ((lastRecord env).status = .completed →
      (lastRecord env).result_path.isSome = true ∧ (lastRecord env).error = none) ∧
    ((lastRecord env).status = .failed →
      (lastRecord env).error.isSome = true ∧ (lastRecord env).result_path = none) := by
  rcases env with ⟨p, u, vp, va, er, gr, xr, op⟩
  cases u <;> cases vp <;> cases va <;> cases er <;> cases gr <;> cases xr <;>
    simp [lastRecord, runTask, runGenPhase, failUpd, initialRecord]

/-- Witness for `terminal_fields_exclusive`: a completed run and a failed run,
with the hypotheses discharged by evaluation. -/
theorem terminal_fields_exclusive_witness :
    ((lastRecord ⟨"chair", true, true, true, .ok "a fancy chair", .ok (), .ok (),
        "outputs/t1.obj"⟩).result_path.isSome = true ∧
      (lastRecord ⟨"chair", true, true, true, .ok "a fancy chair", .ok (), .ok (),
        "outputs/t1.obj"⟩).error = none) ∧
    ((lastRecord ⟨"chair", false, true, true, .ok "x", .error "gen boom", .ok (),
        "outputs/t1.obj"⟩).error.isSome = true ∧
      (lastRecord ⟨"chair", false, true, true, .ok "x", .error "gen boom", .ok (),
        "outputs/t1.obj"⟩).result_path = none) :=
  ⟨(terminal_fields_exclusive _).1 (by decide),
   (terminal_fields_exclusive _).2 (by decide)⟩

/-- C4: for every run of the executor pipeline, the successive progress values
written over the task's lifetime (0 at creation through every stage update,
including the failure path) are monotonically non-decreasing. -/
theorem progress_monotone (env : RunEnv) :
    List.Chain' (· ≤ ·) ((runTask env).1.map TaskRecord.progress) := by
  rcases env with ⟨p, u, vp, va, er, gr, xr, op⟩
  cases u <;> cases vp <;> cases va <;> cases er <;> cases gr <;> cases xr <;>
    simp [runTask, runGenPhase, failUpd, initialRecord] <;> norm_num

/-- C10: for every run whose terminal record is failed, the failing update
left `progress` and `result_path` exactly as they were immediately before the
failure, and in particular `result_path` is still unset. -/
theorem failed_frame (env : RunEnv) (h : (lastRecord env).status = .failed) :
    (lastRecord env).progress = (prevRecord env).progress ∧
    (lastRecord env).result_path = (prevRecord env).result_path ∧
    (lastRecord env).result_path = none := by
  rcases env with ⟨p, u, vp, va, er, gr, xr, op⟩
  cases u <;> cases vp <;> cases va <;> cases er <;> cases gr <;> cases xr <;>
    simp_all [lastRecord, prevRecord, runTask, runGenPhase, failUpd, initialRecord]

/-- Witness for `failed_frame`: a run failing at the generation stage. -/
theorem failed_frame_witness :
    (lastRecord ⟨"chair", false, true, true, .ok "x", .error "gen boom", .ok (),
        "outputs/t1.obj"⟩).progress =
      (prevRecord ⟨"chair", false, true, true, .ok "x", .error "gen boom", .ok (),
        "outputs/t1.obj"⟩).progress ∧
    (lastRecord ⟨"chair", false, true, true, .ok "x", .error "gen boom", .ok (),
        "outputs/t1.obj"⟩).result_path =
      (prevRecord ⟨"chair", false, true, true, .ok "x", .error "gen boom", .ok (),
        "outputs/t1.obj"⟩).result_path ∧
    (lastRecord ⟨"chair", false, true, true, .ok "x", .error "gen boom", .ok (),
        "outputs/t1.obj"⟩).result_path = none :=
  failed_frame _ (by decide)

/-- C8: `create_task` returns the fresh task id with the new record installed
in the registry; that record is pending with progress 0 and no terminal field
set, and it is the head of every possible executor trace — i.e. it is the
snapshot visible before any pipeline stage has executed. -/
theorem createTask_initial (tasks : String → Option TaskRecord) (taskId : String)
    (env : RunEnv) :
    (createTask tasks taskId).1 = taskId ∧
    (createTask tasks taskId).2 taskId = some initialRecord ∧
    initialRecord.status = .pending ∧
    initialRecord.progress = 0 ∧
    initialRecord.result_path = none ∧
    initialRecord.error = none ∧
    (runTask env).1.head? = some initialRecord := by
  refine ⟨rfl, by simp [createTask], rfl, rfl, rfl, rfl, ?_⟩
  rcases env with ⟨p, u, vp, va, er, gr, xr, op⟩
  cases u <;> cases vp <;> cases va <;> cases er <;> cases gr <;> cases xr <;>
    simp [runTask, runGenPhase, failUpd]

/-- C1 counterexample: with the enhancement stage enabled and an enhancer that
is available but whose `enhance_prompt` raises, the task is driven to failed
and generation never runs — the pipeline does not fall back to the original
prompt. -/
theorem enhancer_exception_fails_task :
    (lastRecord ⟨"chair", true, true, true, .error "VLM exploded", .ok (), .ok (),
        "outputs/t1.obj"⟩).status = .failed ∧
    (runTask ⟨"chair", true, true, true, .error "VLM exploded", .ok (), .ok (),
        "outputs/t1.obj"⟩).2 = none := by
  constructor <;> rfl

/-- C1 amended: when the enhancement stage is disabled or the enhancer is
absent or unavailable, execution continues with the original prompt; but an
exception raised by `enhance_prompt` propagates to the task-level handler and
drives the task to failed, carrying the enhancer's error, with generation
never invoked. -/
theorem enhancement_fallback (env : RunEnv) :
    ((env.useVlm && env.vlmPresent && env.vlmAvailable) = false →
      (runTask env).2 = some env.prompt) ∧
    (∀ e, (env.useVlm && env.vlmPresent && env.vlmAvailable) = true →
      env.enhanceRes = .error e →
      (lastRecord env).status = .failed ∧
      (lastRecord env).error = some e ∧
      (runTask env).2 = none) := by
  rcases env with ⟨p, u, vp, va, er, gr, xr, op⟩
  cases u <;> cases vp <;> cases va <;> cases er <;> cases gr <;> cases xr <;>
    simp [lastRecord, runTask, runGenPhase, failUpd, initialRecord]

/-- Witness for `enhancement_fallback`: one run with the enhancer unavailable
(falls back to the original prompt) and one enabled run whose enhancer
raises (task failed, generation not reached). -/
theorem enhancement_fallback_witness :
    (runTask ⟨"chair", true, true, false, .ok "ignored", .ok (), .ok (),
        "outputs/t1.obj"⟩).2 = some "chair" ∧
    ((lastRecord ⟨"chair", true, true, true, .error "VLM exploded", .ok (), .ok (),
        "outputs/t1.obj"⟩).status = .failed ∧
      (lastRecord ⟨"chair", true, true, true, .error "VLM exploded", .ok (), .ok (),
        "outputs/t1.obj"⟩).error = some "VLM exploded" ∧
      (runTask ⟨"chair", true, true, true, .error "VLM exploded", .ok (), .ok (),
        "outputs/t1.obj"⟩).2 = none) :=
  ⟨(enhancement_fallback _).1 (by decide),
   (enhancement_fallback _).2 "VLM exploded" (by decide) rfl⟩

/-- Any string whose character at index 11 is not `'f'` differs from every
error of the form `"Generation failed: " ++ e` (whose index 11 is the `'f'`
of "failed"). -/
lemma ne_genFailed (s : String) (h11 : s.data[11]? ≠ some 'f') (e : String) :
    s ≠ "Generation failed: " ++ e := by
  intro he
  apply h11
  have hdata : ("Generation failed: " ++ e).data[11]? = some 'f' := by
    rw [String.data_append,
      List.getElem?_append_left (by decide : 11 < "Generation failed: ".data.length)]
    decide
  rw [he]
  exact hdata

/-- If every poll from index `i` onward within the wait budget is
non-terminal, the polling loop ends in the timed-out error. -/
lemma apiGeneratePoll_timeout (check : Nat → StatusResult) :
    ∀ fuel i, (∀ j, i ≤ j → 5 * j < 300 → nonTerminal (check j)) →
      apiGeneratePoll check fuel i = .error "Generation timed out" := by
  intro fuel
  induction fuel with
  | zero => intro i _; rfl
  | succ n ih =>
    intro i h
    rw [apiGeneratePoll]
    by_cases h300 : 5 * i < 300
    · obtain ⟨hc, hf⟩ := h i le_rfl h300
      rw [if_pos h300, if_neg hc, if_neg hf]
      exact ih (i + 1) fun j hj => h j (by omega)
    · rw [if_neg h300]

/-- If the first terminal classification appears at poll `i`, within budget,
and is completed without a truthy result URL, the loop ends in the
no-result-URL error. -/
lemma apiGeneratePoll_no_url (check : Nat → StatusResult) (i : Nat)
    (hi : 5 * i < 300) (hc : (check i).status = "completed")
    (hu : pyTruthyStr (check i).result_url = false) :
    ∀ fuel i₀, i₀ ≤ i → i - i₀ < fuel →
      (∀ j, i₀ ≤ j → j < i → nonTerminal (check j)) →
      apiGeneratePoll check fuel i₀ =
        .error "Generation completed but no result URL provided" := by
  intro fuel
  induction fuel with
  | zero => intro i₀ _ hfuel _; omega
  | succ n ih =>
    intro i₀ hle hfuel h
    rw [apiGeneratePoll]
    rw [if_pos (by omega : 5 * i₀ < 300)]
    rcases eq_or_lt_of_le hle with rfl | hlt
    · rw [if_pos hc, hu]
      rfl
    · obtain ⟨hcj, hfj⟩ := h i₀ le_rfl hlt
      rw [if_neg hcj, if_neg hfj]
      exact ih (i₀ + 1) (by omega) (by omega) fun j hj => h j (by omega)

/-- C5: when the backend's status check never returns a terminal
classification within the 300-unit wait budget polled at 5-unit intervals,
the remote poller's `generate` ends in the timed-out error, which differs
from every error raised for an explicit remote failed classification. -/
theorem remote_timeout_distinct (className submitId : String)
    (check : Nat → StatusResult)
    (h : ∀ i, 5 * i < 300 → nonTerminal (check i)) :
    apiGenerate className true (.ok submitId) check =
      .error "Generation timed out" ∧
    ∀ e, "Generation timed out" ≠ "Generation failed: " ++ e := by
  refine ⟨?_, ne_genFailed _ (by decide)⟩
  show apiGeneratePoll check 61 0 = .error "Generation timed out"
  exact apiGeneratePoll_timeout check 61 0 fun j _ hj => h j hj

/-- Witness for `remote_timeout_distinct`: a backend stuck in "processing". -/
theorem remote_timeout_distinct_witness :
    apiGenerate "Instant3DGenerator" true (.ok "job-1")
        (fun _ => ⟨"processing", none, none, none⟩) =
      .error "Generation timed out" ∧
    ∀ e, "Generation timed out" ≠ "Generation failed: " ++ e :=
  remote_timeout_distinct "Instant3DGenerator" "job-1" _
    (fun _ _ => ⟨by decide, by decide⟩)

/-- C6: when the status check returns a completed classification without a
result reference (the first terminal classification, within budget), the
remote poller's `generate` ends in the completed-with-no-result error, which
differs from every error raised for an explicit remote failed
classification. -/
theorem completed_no_result_distinct (className submitId : String)
    (check : Nat → StatusResult) (i : Nat)
    (hi : 5 * i < 300)
    (hpre : ∀ j, j < i → nonTerminal (check j))
    (hc : (check i).status = "completed")
    (hu : pyTruthyStr (check i).result_url = false) :
    apiGenerate className true (.ok submitId) check =
      .error "Generation completed but no result URL provided" ∧
    ∀ e, "Generation completed but no result URL provided" ≠
      "Generation failed: " ++ e := by
  refine ⟨?_, ne_genFailed _ (by decide)⟩
  show apiGeneratePoll check 61 0 =
    .error "Generation completed but no result URL provided"
  exact apiGeneratePoll_no_url check i hi hc hu 61 0 (Nat.zero_le i) (by omega)
    fun j _ hj => hpre j hj

/-- Witness for `completed_no_result_distinct`: a backend answering
"processing" twice and then "completed" with no result URL. -/
theorem completed_no_result_distinct_witness :
    apiGenerate "Instant3DGenerator" true (.ok "job-1")
        (fun i => if i < 2 then ⟨"processing", none, none, none⟩
          else ⟨"completed", none, none, none⟩) =
      .error "Generation completed but no result URL provided" ∧
    ∀ e, "Generation completed but no result URL provided" ≠
      "Generation failed: " ++ e :=
  completed_no_result_distinct "Instant3DGenerator" "job-1" _ 2
    (by omega) (fun j hj => by interval_cases j <;> exact ⟨by decide, by decide⟩)
    (by decide) (by decide)

/-- The statuses (post-lowercasing) for which Instant3D's `_check_status`
branch structure yields one of the four normalized classifications. -/
def i3dRecognized : List String :=
  ["pending", "processing", "completed", "failed",
   "done", "success", "error", "generating", "in_progress"]

/-- On every recognized lowercased status, Instant3D's branch structure
produces one of the four normalized classifications. -/
lemma i3dNormalize_mem (d : I3DResponse) (s : String) (h : s ∈ i3dRecognized) :
    (i3dNormalize d s).status ∈ normalizedStatuses := by
  simp only [i3dRecognized, List.mem_cons, List.not_mem_nil, or_false] at h
  rcases h with rfl | rfl | rfl | rfl | rfl | rfl | rfl | rfl | rfl <;>
    simp [i3dNormalize, normalizedStatuses]

/-- On every unrecognized lowercased status, Instant3D's branch structure
takes the final else branch: the status passes through unchanged. -/
lemma i3dNormalize_passthrough (d : I3DResponse) (s : String)
    (h : s ∉ i3dRecognized) : (i3dNormalize d s).status = s := by
  simp only [i3dRecognized, List.mem_cons, List.not_mem_nil, or_false,
    not_or] at h
  obtain ⟨h1, h2, h3, h4, h5, h6, h7, h8, h9⟩ := h
  unfold i3dNormalize
  rw [if_neg (by simp [h3, h5, h6]), if_neg (by simp [h4, h7]),
    if_neg (by simp [h2, h8, h9])]

/-- C2 counterexample: Neural4D's status check classifies the backend status
"done" as "done" — not as "completed", and outside the four-value set — and
Instant3D passes an unrecognized status ("queued") through unchanged. -/
theorem status_not_normalized :
    (neural4dCheckStatus ⟨some "done", none, none, none, none, none⟩).status =
      "done" ∧
    "done" ∉ normalizedStatuses ∧
    (instant3dCheckStatus ⟨some "queued", none, none, none, none⟩).status =
      "queued" ∧
    "queued" ∉ normalizedStatuses := by
  refine ⟨by decide, by decide, by decide, by decide⟩

/-- C2 amended: Instant3D maps its recognized synonym sets onto the four
normalized classifications but passes any other backend status through
unchanged; Neural4D performs no synonym mapping at all — its classification
is always exactly the lowercased backend status (so only literal "completed"
and "failed" are treated as terminal). -/
theorem status_normalization_amended :
    (∀ d : I3DResponse,
      pyLower (d.status.getD "pending") ∈ i3dRecognized →
        (instant3dCheckStatus d).status ∈ normalizedStatuses) ∧
    (∀ d : I3DResponse,
      pyLower (d.status.getD "pending") ∉ i3dRecognized →
        (instant3dCheckStatus d).status = pyLower (d.status.getD "pending")) ∧
    (∀ d : N4DResponse,
      (neural4dCheckStatus d).status = pyLower (d.status.getD "pending")) := by
  refine ⟨?_, ?_, ?_⟩
  · intro d h
    exact i3dNormalize_mem d _ h
  · intro d h
    exact i3dNormalize_passthrough d _ h
  · intro d
    unfold neural4dCheckStatus n4dNormalize
    split
    · rfl
    · split <;> rfl

/-- Witness for `status_normalization_amended`: the backend status "Done" is
recognized by Instant3D and classified into the four-value set, while the
unrecognized status "queued" passes through unchanged. -/
theorem status_normalization_amended_witness :
    (instant3dCheckStatus ⟨some "Done", some "http://x/m.obj", none, none,
        none⟩).status ∈ normalizedStatuses ∧
    (instant3dCheckStatus ⟨some "queued", none, none, none, none⟩).status =
      pyLower (((⟨some "queued", none, none, none, none⟩ :
        I3DResponse)).status.getD "pending") :=
  ⟨status_normalization_amended.1 _ (by decide),
   status_normalization_amended.2.1 _ (by decide)⟩

/-- C7: the HuggingFace response decoder tries its paths in fixed priority
order — directly embedded vertex/face data, then encoded file content, then a
secondary URL — committing to the first applicable path, and raises the
unrecognized-response-shape failure only when every path (including the
trailing raw-data path) is inapplicable. -/
theorem decode_priority (r : HFResponse) :
    (r.vertices.isSome = true ∧ r.faces.isSome = true →
      parseResponseToMesh r =
        .ok (.direct ⟨r.vertices.getD [], r.faces, r.normals, ""⟩)) ∧
    (¬(r.vertices.isSome = true ∧ r.faces.isSome = true) →
      (r.file.isSome = true ∨ r.mesh.isSome = true) →
      parseResponseToMesh r = .ok (.fromFile (pyOr r.file r.mesh))) ∧
    (¬(r.vertices.isSome = true ∧ r.faces.isSome = true) →
      ¬(r.file.isSome = true ∨ r.mesh.isSome = true) →
      (r.url.isSome = true ∨ r.download_url.isSome = true) →
      parseResponseToMesh r = .ok (.fromUrl (pyOr r.url r.download_url))) ∧
    (∀ e, parseResponseToMesh r = .error e →
      ¬(r.vertices.isSome = true ∧ r.faces.isSome = true) ∧
      ¬(r.file.isSome = true ∨ r.mesh.isSome = true) ∧
      ¬(r.url.isSome = true ∨ r.download_url.isSome = true)) := by
  rcases r with ⟨v, f, nrm, fl, ms, u, du, dt⟩
  cases v <;> cases f <;> cases fl <;> cases ms <;> cases u <;> cases du <;>
    cases dt <;> simp [parseResponseToMesh]

/-- Witness for `decode_priority`: a response holding both encoded file
content and a URL but no embedded vertex/face data decodes via the encoded
file content, the URL path unused. -/
theorem decode_priority_witness :
    parseResponseToMesh
        ⟨none, none, none, some "QUJD", none, some "http://x/m.obj", none,
          none⟩ =
      .ok (.fromFile (some "QUJD")) :=
  (decode_priority _).2.1 (by decide) (by decide)

/-- A task record mid-run at the export stage (the snapshot the executor holds
while the output file is being written, before the completed update): it
occurs in an executor trace. -/
def exportStageRecord : TaskRecord :=
  { status := .processing
    progress := (4 : ℚ)/5
    message := "Exporting mesh..."
    result_path := none
    error := none }

/-- A registry in which task "t1" is still processing (at the export stage). -/
def processingTasks : String → Option TaskRecord :=
  fun taskId => if taskId = "t1" then some exportStageRecord else none

/-- C9 counterexample: the download route serves the file `t1.obj` from the
output directory although the owning task "t1" is still processing — the
route consults only file existence and path containment, never task state
(the state check lives in `get_result_path`, which the route does not call
and which returns none here).  The processing record is a genuine mid-run
snapshot of the executor. -/
theorem download_ignores_task_state :
    downloadFile ["outputs"] [["outputs", "t1.obj"]] "t1.obj" =
      .served ["outputs", "t1.obj"] ∧
    (processingTasks "t1").map TaskRecord.status = some .processing ∧
    getResultPath processingTasks "t1" = none ∧
    exportStageRecord ∈
      (runTask ⟨"chair", false, false, false, .ok "", .ok (), .ok (),
        "outputs/t1.obj"⟩).1 := by
  refine ⟨by decide, by decide, by decide, ?_⟩
  simp [runTask, runGenPhase, initialRecord, exportStageRecord]

/-- C9 amended: every request whose resolved path escapes the designated
output directory is rejected rather than served, and the route serves exactly
the existing files whose resolved path stays under the output directory —
independently of any task's state; only the (uncalled) `get_result_path`
helper restricts access to completed tasks. -/
theorem download_amended :
    (∀ (outDir : List String) (files : List (List String)) (fn : String)
        (p : List String),
      downloadFile outDir files fn = .served p →
      (normSegs [] outDir).isPrefixOf p = true) ∧
    (∀ (outDir : List String) (files : List (List String)) (fn : String),
      normSegs [] (outDir ++ pySplitSlash fn) ∈ files →
      (normSegs [] outDir).isPrefixOf
        (normSegs [] (outDir ++ pySplitSlash fn)) = true →
      downloadFile outDir files fn =
        .served (normSegs [] (outDir ++ pySplitSlash fn))) ∧
    (∀ (tasks : String → Option TaskRecord) (taskId : String) (p : String),
      getResultPath tasks taskId = some p →
      ∃ t, tasks taskId = some t ∧ t.status = .completed ∧
        t.result_path = some p) := by
  refine ⟨?_, ?_, ?_⟩
  · intro outDir files fn p h
    unfold downloadFile at h
    split at h
    · split at h
      · simp only [DownloadResult.served.injEq] at h
        subst h
        assumption
      · exact absurd h (by simp)
    · exact absurd h (by simp)
  · intro outDir files fn hmem hpre
    unfold downloadFile
    rw [if_pos hmem, if_pos hpre]
  · intro tasks taskId p h
    unfold getResultPath at h
    split at h
    · exact absurd h (by simp)
    · rename_i t ht
      split at h
      · rename_i hcond
        exact ⟨t, ht, hcond.1, h⟩
      · exact absurd h (by simp)

/-- A registry with one completed task "t2", for the witness below. -/
def completedTasks : String → Option TaskRecord :=
  fun taskId =>
    if taskId = "t2" then
      some { status := .completed
             progress := 1
             message := "Generation completed"
             result_path := some "outputs/a.obj"
             error := none }
    else none

/-- Witness for `download_amended`: serving a concrete existing in-directory
file, and `get_result_path` on a completed record. -/
theorem download_amended_witness :
    downloadFile ["outputs"] [["outputs", "a.obj"]] "a.obj" =
      .served (normSegs [] (["outputs"] ++ pySplitSlash "a.obj")) ∧
    ∃ t, completedTasks "t2" = some t ∧
      t.status = .completed ∧ t.result_path = some "outputs/a.obj" :=
  ⟨download_amended.2.1 ["outputs"] [["outputs", "a.obj"]] "a.obj"
      (by decide) (by decide),
   download_amended.2.2 completedTasks "t2" "outputs/a.obj" (by decide)⟩

end ThreeDLLM
